import Mathlib

/-!
Verification of the BOQ management application (`boq_management_app/app.py`)
against its natural-language specification.

The relevant parts of the program are shallowly embedded below:

* the BOQ delivery ledger (table `boq_items`, ten delivery slots per item,
  the ingestion code at app.py lines 748-770 and the slot-update code at
  lines 1195-1218);
* the per-line PO validation (app.py lines 1167-1184);
* the PO totals (app.py lines 1075-1084);
* the PO sequence counter (table `po_counters`, `generate_po_number`,
  app.py lines 506-543) and the financial-year resolver
  (`get_current_financial_year`, app.py lines 490-503);
* the location-deletion handler (app.py lines 2144-2149);
* a model of IEEE-754 binary64 arithmetic, used to settle the claim about
  the numeric representation employed by the totals code.

Quantities, rates and prices are embedded as exact rationals; the binary64
model makes rounding explicit where the numeric-representation claim needs it.
Database rows are embedded as Lean structures, tables as lists, and the
mutation of a table inside a request handler as a function from the old
table to the new one.  Textual columns with no role in the claims
(descriptions, addresses, GST numbers and so on) are carried as plain strings
or omitted.
-/

/-! ## The delivery ledger (table `boq_items`)

One row of `boq_items` as selected and updated by the PO-generation code:
`boq_ref`, descriptive columns, `boq_qty`, `rate`, `amount`, the ten
`delivered_qty_i` columns (embedded as a list, index 0 standing for
`delivered_qty_1`), `total_delivery_qty` and `balance_to_deliver`. -/
structure BOQItem where
  boq_ref : String
  description : String
  make : String
  model : String
  unit : String
  boq_qty : ℚ
  rate : ℚ
  amount : ℚ
  delivered : List ℚ
  total_delivery_qty : ℚ
  balance_to_deliver : ℚ
deriving DecidableEq

/-- BOQ ingestion (app.py lines 748-770): the delivery-slot columns are
filled (ten slots, missing ones created as 0), `amount` is computed as
`boq_qty * rate` when absent, `total_delivery_qty` as the row-wise sum of the
ten slots, and `balance_to_deliver` as `boq_qty - total_delivery_qty`.
Numeric cleaning (`clean_numeric`) is modelled by taking the already-parsed
rational values as inputs. -/
def ingestBOQItem (boq_ref description make model unit : String)
    (boq_qty rate : ℚ) (slots : List ℚ) : BOQItem :=
  { boq_ref := boq_ref
    description := description
    make := make
    model := model
    unit := unit
    boq_qty := boq_qty
    rate := rate
    amount := boq_qty * rate
    delivered := slots
    total_delivery_qty := slots.sum
    balance_to_deliver := boq_qty - slots.sum }

/-- The ledger update performed for one accepted PO line
(app.py lines 1207-1218): add the quantity to the selected slot
(`delivered_list[slot_index] += Decimal(str(quantity))`), recompute
`total_delivery_qty` as the sum of all ten slots and `balance_to_deliver` as
`boq_qty` minus that sum, and store all three. `slot` is the 0-based index
computed from the selected slot name. -/
def applyDelivery (item : BOQItem) (slot : ℕ) (qty : ℚ) : BOQItem :=
  let d := item.delivered.set slot (item.delivered.getD slot 0 + qty)
  { item with
    delivered := d
    total_delivery_qty := d.sum
    balance_to_deliver := item.boq_qty - d.sum }

/-- The ledger bookkeeping invariant: the stored `total_delivery_qty` is the
sum of the delivery slots and the stored `balance_to_deliver` is
`boq_qty - total_delivery_qty`. -/
def ledgerInvariant (item : BOQItem) : Prop :=
  item.total_delivery_qty = item.delivered.sum ∧
  item.balance_to_deliver = item.boq_qty - item.total_delivery_qty

/-! ## Per-line PO validation (app.py lines 1167-1184) -/

/-- One row of the editable PO dataframe: the columns read by the
validation and commit code (`boq_ref`, `rate`, `balance_to_deliver`,
`Quantity`, `Unit Price`). -/
structure PORow where
  boq_ref : String
  rate : ℚ
  balance_to_deliver : ℚ
  quantity : ℚ
  unit_price : ℚ
deriving DecidableEq

/-- One entry of the `error_rows` list built by the validation loop, with
the offending values it interpolates into the message. -/
inductive LineError where
  | balanceExceeded (ref : String) (balance tried : ℚ)
  | priceExceeded (ref : String) (allowed entered : ℚ)
deriving DecidableEq

/-- The per-row validation of app.py lines 1175-1184:

    if quantity > 0:
        if quantity > balance: ... append balance error
        elif unit_price > rate * 1.10: ... append price error

returning the errors this row contributes to `error_rows`. -/
def validateRow (row : PORow) : List LineError :=
  if row.quantity > 0 then
    if row.quantity > row.balance_to_deliver then
      [LineError.balanceExceeded row.boq_ref row.balance_to_deliver row.quantity]
    else if row.unit_price > row.rate * (11/10) then
      [LineError.priceExceeded row.boq_ref (row.rate * (11/10)) row.unit_price]
    else []
  else []

/-- The whole validation loop (app.py lines 1171-1184): every row is
visited and its errors appended to `error_rows`; `validation_failed` is set
exactly when the resulting list is nonempty. -/
def validatePO : List PORow → List LineError
  | [] => []
  | r :: rs => validateRow r ++ validatePO rs

/-! ## PO totals (app.py lines 1075-1084) -/

/-- `subtotal = updated_df["Total"].sum()` where
`Total = Quantity * Unit Price` per row. -/
def subtotal (rows : List PORow) : ℚ :=
  (rows.map (fun r => r.quantity * r.unit_price)).sum

/-- `gst_amount = (subtotal * gst_percent) / 100`. -/
def gst_amount (rows : List PORow) (gst_percent : ℚ) : ℚ :=
  subtotal rows * gst_percent / 100

/-- `grand_total = subtotal + gst_amount`. -/
def grand_total (rows : List PORow) (gst_percent : ℚ) : ℚ :=
  subtotal rows + gst_amount rows gst_percent

/-! ## The commit phase of PO generation (app.py lines 1192-1220) -/

/-- The per-row database update: `SELECT ... WHERE project_id = ... AND
boq_ref = ...` followed by `fetchone()` returns the first matching ledger
row, which is then updated by `applyDelivery`; when no row matches
(`if result:` is false) nothing happens. -/
def updateFirst (ledger : List BOQItem) (ref : String) (slot : ℕ) (qty : ℚ) :
    List BOQItem :=
  match ledger with
  | [] => []
  | it :: rest =>
    if it.boq_ref = ref then applyDelivery it slot qty :: rest
    else it :: updateFirst rest ref slot qty

/-- The commit loop (app.py lines 1192-1218): for each row of the edited
dataframe with `Quantity > 0`, look up the matching ledger row and apply the
delivery; other rows are skipped. -/
def commitRows (ledger : List BOQItem) (slot : ℕ) (rows : List PORow) :
    List BOQItem :=
  rows.foldl
    (fun lg r => if r.quantity > 0 then updateFirst lg r.boq_ref slot r.quantity else lg)
    ledger

/-- Outcome of pressing "Generate Purchase Order": either an accepted PO
carrying the PO number taken from the form's text input together with the
computed totals, or the collected validation errors. -/
inductive AllocResult where
  | accepted (po_number : String) (sub gst grand : ℚ)
  | rejected (errors : List LineError)
deriving DecidableEq

/-- `AllocResult.accepted` recognizer. -/
def AllocResult.isAccepted : AllocResult → Prop
  | AllocResult.accepted _ _ _ _ => True
  | AllocResult.rejected _ => False

/-- The allocation logic behind the "Generate Purchase Order" button
(app.py lines 1163-1220), after the form-field checks: run the validation
loop over all rows; if any error was collected, report them all and leave
the ledger untouched; otherwise apply every positive-quantity row to the
ledger and return the finalized totals.  The PO number placed in the result
is the content of the "PO Number" text input (app.py line 933) — this code
path never calls `generate_po_number`. -/
def allocate (ledger : List BOQItem) (slot : ℕ) (rows : List PORow)
    (po_number_input : String) (gst_percent : ℚ) :
    AllocResult × List BOQItem :=
  let errors := validatePO rows
  if errors.isEmpty then
    (AllocResult.accepted po_number_input (subtotal rows)
      (gst_amount rows gst_percent) (grand_total rows gst_percent),
     commitRows ledger slot rows)
  else
    (AllocResult.rejected errors, ledger)

/-- The full "Generate Purchase Order" action over both tables it could
touch: it runs `allocate` on the `boq_items` ledger and leaves the
`po_counters` table exactly as it found it (the handler at app.py lines
1163-1220 contains no statement touching `po_counters`). -/
def generatePurchaseOrder (counters : List (String × ℤ))
    (ledger : List BOQItem) (slot : ℕ) (rows : List PORow)
    (po_number_input : String) (gst_percent : ℚ) :
    AllocResult × List BOQItem × List (String × ℤ) :=
  let r := allocate ledger slot rows po_number_input gst_percent
  (r.1, r.2, counters)

/-! ## Sequence counters (table `po_counters`) and PO numbers -/

/-- `SELECT last_serial_number FROM po_counters WHERE location_code = ...`
followed by `fetchone()`: the value of the first row stored for the
location, if any. -/
def lookupCounter : List (String × ℤ) → String → Option ℤ
  | [], _ => none
  | p :: rest, loc => if p.1 = loc then some p.2 else lookupCounter rest loc

/-- `UPDATE po_counters SET last_serial_number = v WHERE location_code = loc`. -/
def setCounter (tbl : List (String × ℤ)) (loc : String) (v : ℤ) :
    List (String × ℤ) :=
  tbl.map (fun p => if p.1 = loc then (p.1, v) else p)

/-- The counter logic inside `generate_po_number` (app.py lines 511-539):
read the row for the location; if present, issue `last_serial_number + 1`
and store it back; if absent, insert a fresh row and issue serial 1.
Returns the issued serial and the updated table. -/
def nextSerial (tbl : List (String × ℤ)) (loc : String) :
    ℤ × List (String × ℤ) :=
  match lookupCounter tbl loc with
  | some cur => (cur + 1, setCounter tbl loc (cur + 1))
  | none => (1, tbl ++ [(loc, 1)])

/-- The serials returned by `n` successive calls of the issuer for one
location, threading the updated table through. -/
def serialRun (tbl : List (String × ℤ)) (loc : String) : ℕ → List ℤ
  | 0 => []
  | n + 1 => (nextSerial tbl loc).1 :: serialRun (nextSerial tbl loc).2 loc n

/-- Python's `f"{serial:03d}"` for the nonnegative serials the counter
produces: decimal digits left-padded with zeros to width 3. -/
def pad3 (n : ℤ) : String :=
  let s := toString n
  if s.length < 3 then String.mk (List.replicate (3 - s.length) '0') ++ s else s

/-- Python's `str(y)[-2:]`: the last two characters of the decimal
representation. -/
def last2 (y : ℕ) : String := (toString y).takeRight 2

/-- `get_current_financial_year` (app.py lines 490-503), with the current
date `datetime.now()` made an explicit `(year, month)` input: month ≥ 4
yields the fiscal year `(year, year+1)`, otherwise `(year-1, year)`, and
the label is rendered `"2K{str(fy_start)[-2:]}-2K{str(fy_end)[-2:]}"`. -/
def get_current_financial_year (year month : ℕ) : String :=
  let fy := if 4 ≤ month then (year, year + 1) else (year - 1, year)
  "2K" ++ last2 fy.1 ++ "-2K" ++ last2 fy.2

/-- `generate_po_number` (app.py lines 506-543), with the current date an
explicit input: resolve the fiscal label, issue the next serial for the
location (creating the counter row if needed, committing the new value),
and format `f"ZTPL-{location_code}/{fy_year}-{next_serial:03d}"`. -/
def generate_po_number (tbl : List (String × ℤ)) (loc : String)
    (year month : ℕ) : String × List (String × ℤ) :=
  let fy := get_current_financial_year year month
  let r := nextSerial tbl loc
  ("ZTPL-" ++ loc ++ "/" ++ fy ++ "-" ++ pad3 r.1, r.2)

/-! ## Location administration (app.py lines 2144-2149) -/

/-- The two tables touched by the location-deletion handler:
`locations` (code, name) and `po_counters` (code, last serial). -/
structure AdminTables where
  locations : List (String × String)
  counters : List (String × ℤ)
deriving DecidableEq

/-- The delete button's handler (app.py lines 2144-2149): it executes
`DELETE FROM po_counters WHERE location_code = ...` and
`DELETE FROM locations WHERE location_code = ...` and commits both. -/
def deleteLocation (db : AdminTables) (loc : String) : AdminTables :=
  { locations := db.locations.filter (fun p => p.1 != loc)
    counters := db.counters.filter (fun p => p.1 != loc) }

/-! ## A model of IEEE-754 binary64 arithmetic

The PO-generation page converts every quantity, rate and price to Python
floats / pandas float64 (`CAST(rate as FLOAT)`, `.astype(float)`,
`float(row[...])`, app.py lines 1049, 1057, 1075-1077, 1169-1172) and the
totals at lines 1079-1084 are computed on float64 values.  A binary64
number is modelled as a pair `(m, e)` of significand and exponent with
value `m * 2^e`; rounding is round-to-nearest, ties to even.  The model
covers positive finite values away from overflow and subnormal range,
which is where every quantity and price of this application lives. -/

/-- Number of binary digits, by fuel-bounded halving (fuel 1100 covers all
finite binary64 magnitudes). -/
def bitLenAux : ℕ → ℕ → ℕ
  | 0, _ => 0
  | fuel + 1, n => if n = 0 then 0 else bitLenAux fuel (n / 2) + 1

/-- Number of binary digits of `n`. -/
def bitLen (n : ℕ) : ℕ := bitLenAux 1100 n

/-- Nearest integer to `numer / denom` (both positive), ties to even. -/
def roundNearestEven (numer denom : ℕ) : ℤ :=
  let q := numer / denom
  let r := numer % denom
  if 2 * r < denom then (q : ℤ)
  else if denom < 2 * r then (q : ℤ) + 1
  else if q % 2 = 0 then (q : ℤ) else (q : ℤ) + 1

/-- The binary64 value nearest to the positive rational `a / b`, as a
significand/exponent pair `(m, e)` with `2^52 ≤ m < 2^53` (after rounding,
`m = 2^53` may occur; the represented value is still exact).  This is the
double that results from storing the decimal input `a / b` in a float64
column or entering it in the editable dataframe. -/
def rnd64 (a b : ℕ) : ℤ × ℤ :=
  let e0 : ℤ := (bitLen a : ℤ) - (bitLen b : ℤ)
  let e : ℤ := if b * 2 ^ e0.toNat ≤ a * 2 ^ (-e0).toNat then e0 else e0 - 1
  let numer : ℕ := a * 2 ^ (52 - e).toNat
  let denom : ℕ := b * 2 ^ (e - 52).toNat
  (roundNearestEven numer denom, e - 52)

/-- Binary64 multiplication of positive values: the exact product of the
two significands, renormalized to 53 bits with round-to-nearest-even.
This is the float64 product computed for the dataframe's `Total` column. -/
def fmul64 (f g : ℤ × ℤ) : ℤ × ℤ :=
  let M : ℤ := f.1 * g.1
  let E : ℤ := f.2 + g.2
  let bl : ℕ := bitLen M.toNat
  if bl ≤ 53 then (M, E)
  else (roundNearestEven M.toNat (2 ^ (bl - 53)), E + (bl - 53))

/-- The exact rational value represented by a binary64 pair. -/
def val64 (f : ℤ × ℤ) : ℚ := (f.1 : ℚ) * (2 : ℚ) ^ f.2

/-! ## Concrete data used by witnesses and counterexamples -/

/-- A fresh ledger row: 100 units at rate 50, nothing delivered. -/
def item0 : BOQItem :=
  { boq_ref := "I1"
    description := "item one"
    make := "M"
    model := "X"
    unit := "nos"
    boq_qty := 100
    rate := 50
    amount := 5000
    delivered := [0, 0, 0, 0, 0, 0, 0, 0, 0, 0]
    total_delivery_qty := 0
    balance_to_deliver := 100 }

/-- A valid PO row against `item0`: 40 units at price 52 (ceiling 55). -/
def row40 : PORow :=
  { boq_ref := "I1", rate := 50, balance_to_deliver := 100
    quantity := 40, unit_price := 52 }

/-- A PO row whose quantity 200 exceeds the balance 100. -/
def rowOver : PORow :=
  { boq_ref := "I1", rate := 50, balance_to_deliver := 100
    quantity := 200, unit_price := 50 }

/-- A PO row referencing no ledger row (`boq_ref = "ZZ"`). -/
def rowGhost : PORow :=
  { boq_ref := "ZZ", rate := 1, balance_to_deliver := 1
    quantity := 5, unit_price := 7 }

/-! ## Helper lemmas -/

theorem ledgerInvariant_applyDelivery (item : BOQItem) (slot : ℕ) (qty : ℚ) :
    ledgerInvariant (applyDelivery item slot qty) := by
  constructor <;> rfl

theorem ledgerInvariant_ingest (boq_ref description make model unit : String)
    (boq_qty rate : ℚ) (slots : List ℚ) :
    ledgerInvariant (ingestBOQItem boq_ref description make model unit boq_qty rate slots) := by
  constructor <;> rfl

theorem ledgerInvariant_foldl (ops : List (ℕ × ℚ)) (item : BOQItem)
    (h : ledgerInvariant item) :
    ledgerInvariant (ops.foldl (fun it p => applyDelivery it p.1 p.2) item) := by
  induction ops generalizing item with
  | nil => exact h
  | cons op rest ih =>
    exact ih (applyDelivery item op.1 op.2) (ledgerInvariant_applyDelivery _ _ _)

theorem lookupCounter_setCounter_self (tbl : List (String × ℤ)) (loc : String)
    (v : ℤ) (c : ℤ) (h : lookupCounter tbl loc = some c) :
    lookupCounter (setCounter tbl loc v) loc = some v := by
  induction tbl with
  | nil => simp [lookupCounter] at h
  | cons p rest ih =>
    by_cases hp : p.1 = loc
    · simp [lookupCounter, setCounter, hp]
    · simp only [lookupCounter, setCounter, List.map_cons, if_neg hp] at h ⊢
      exact ih h

theorem lookupCounter_append_fresh (tbl : List (String × ℤ)) (loc : String)
    (v : ℤ) (h : lookupCounter tbl loc = none) :
    lookupCounter (tbl ++ [(loc, v)]) loc = some v := by
  induction tbl with
  | nil => simp [lookupCounter]
  | cons p rest ih =>
    by_cases hp : p.1 = loc
    · simp [lookupCounter, hp] at h
    · simp only [lookupCounter, List.cons_append, if_neg hp] at h ⊢
      exact ih h

theorem nextSerial_fst (tbl : List (String × ℤ)) (loc : String) :
    (nextSerial tbl loc).1 = (lookupCounter tbl loc).getD 0 + 1 := by
  unfold nextSerial
  cases h : lookupCounter tbl loc <;> simp [h]

theorem lookupCounter_nextSerial (tbl : List (String × ℤ)) (loc : String) :
    lookupCounter (nextSerial tbl loc).2 loc =
      some ((lookupCounter tbl loc).getD 0 + 1) := by
  unfold nextSerial
  cases h : lookupCounter tbl loc with
  | none => simpa [h] using lookupCounter_append_fresh tbl loc 1 h
  | some c => simpa [h] using lookupCounter_setCounter_self tbl loc (c + 1) c h

theorem serialRun_eq_range (loc : String) (n : ℕ) (tbl : List (String × ℤ)) :
    serialRun tbl loc n =
      (List.range n).map (fun i : ℕ => (lookupCounter tbl loc).getD 0 + 1 + (i : ℤ)) := by
  induction n generalizing tbl with
  | zero => rfl
  | succ m ih =>
    rw [serialRun, List.range_succ_eq_map, List.map_cons, List.map_map]
    refine List.cons_eq_cons.mpr ⟨?_, ?_⟩
    · simpa using nextSerial_fst tbl loc
    · rw [ih (nextSerial tbl loc).2, lookupCounter_nextSerial]
      refine List.map_congr_left ?_
      intro a _
      simp only [Function.comp, Option.getD_some, Nat.succ_eq_add_one]
      push_cast
      ring

/-! ## Claims -/

/-- C2: for every BOQ item and after any finite sequence of `apply_delivery`
calls (any slots, any order, any quantities), the stored `total_delivery_qty`
equals the exact sum of the ten delivered-quantity slots and the stored
`balance_to_deliver` equals `boq_qty - total_delivery_qty`; the same
invariant holds immediately after BOQ ingestion. -/
theorem ledger_invariant_after_ingestion_and_deliveries
    (boq_ref description make model unit : String) (boq_qty rate : ℚ)
    (slots : List ℚ) (ops : List (ℕ × ℚ)) :
    ledgerInvariant (ingestBOQItem boq_ref description make model unit boq_qty rate slots) ∧
    ledgerInvariant (ops.foldl (fun it p => applyDelivery it p.1 p.2)
      (ingestBOQItem boq_ref description make model unit boq_qty rate slots)) := by
  refine ⟨ledgerInvariant_ingest _ _ _ _ _ _ _ _, ?_⟩
  exact ledgerInvariant_foldl ops _ (ledgerInvariant_ingest _ _ _ _ _ _ _ _)

/-- C5: successive calls of the sequence issuer for one location return the
contiguous strictly increasing run of integers starting right after the
stored counter value (`prior + 1, prior + 2, ...`, with `prior` read as 0
when no counter row exists, so the first serial for a fresh location is 1),
and each call persists the serial it issued as the new counter value. -/
theorem sequence_issuer_contiguous_run (tbl : List (String × ℤ)) (loc : String)
    (n : ℕ) :
    serialRun tbl loc n =
      (List.range n).map (fun i : ℕ => (lookupCounter tbl loc).getD 0 + 1 + (i : ℤ)) ∧
    lookupCounter (nextSerial tbl loc).2 loc = some ((nextSerial tbl loc).1) := by
  refine ⟨serialRun_eq_range loc n tbl, ?_⟩
  rw [lookupCounter_nextSerial, nextSerial_fst]

/-- C7: the financial-year resolver maps a date with month ≥ 4 to the label
built from the date's calendar year and the following year, and a date with
month < 4 to the label built from the previous calendar year and the date's
year; in particular 2025-03-31 resolves to "2K24-2K25" and 2025-04-01
resolves to "2K25-2K26". -/
theorem financial_year_resolution :
    (∀ y m : ℕ, 4 ≤ m →
      get_current_financial_year y m = "2K" ++ last2 y ++ "-2K" ++ last2 (y + 1)) ∧
    (∀ y m : ℕ, m < 4 →
      get_current_financial_year y m = "2K" ++ last2 (y - 1) ++ "-2K" ++ last2 y) ∧
    get_current_financial_year 2025 3 = "2K24-2K25" ∧
    get_current_financial_year 2025 4 = "2K25-2K26" := by
  refine ⟨?_, ?_, by decide, by decide⟩
  · intro y m hm
    simp [get_current_financial_year, if_pos hm]
  · intro y m hm
    have : ¬ 4 ≤ m := by omega
    simp [get_current_financial_year, if_neg this]

/-- Witness for C7: the months of the two branches are realizable
(July 1999 resolves to the 1999-2000 label). -/
theorem financial_year_resolution_witness :
    4 ≤ 7 ∧ get_current_financial_year 1999 7 = "2K" ++ last2 1999 ++ "-2K" ++ last2 2000 :=
  ⟨by decide, financial_year_resolution.1 1999 7 (by decide)⟩

theorem validateRow_ne_nil (row : PORow) (hq : 0 < row.quantity)
    (hfail : row.balance_to_deliver < row.quantity ∨
      row.rate * (11/10) < row.unit_price) :
    validateRow row ≠ [] := by
  unfold validateRow
  rw [if_pos hq]
  rcases hfail with hb | hp
  · rw [if_pos hb]
    simp
  · by_cases hb : row.quantity > row.balance_to_deliver
    · rw [if_pos hb]
      simp
    · rw [if_neg hb, if_pos hp]
      simp

theorem validatePO_ne_nil (rows : List PORow) (row : PORow) (hmem : row ∈ rows)
    (hne : validateRow row ≠ []) : validatePO rows ≠ [] := by
  induction rows with
  | nil => cases hmem
  | cons r rs ih =>
    rcases List.mem_cons.mp hmem with hr | hr
    · subst hr
      simp only [validatePO, ne_eq, List.append_eq_nil]
      exact fun h => hne h.1
    · simp only [validatePO, ne_eq, List.append_eq_nil]
      exact fun h => ih hr h.2

/-- C1: if at least one row with positive quantity fails validation (its
quantity exceeds the balance snapshot, or its unit price exceeds
rate × 1.10), the allocation is rejected and the ledger it returns is the
one it was given — every item's delivery slots, `total_delivery_qty` and
`balance_to_deliver` are untouched. -/
theorem allocate_rejection_preserves_ledger
    (ledger : List BOQItem) (slot : ℕ) (rows : List PORow)
    (po_number_input : String) (gst_percent : ℚ) (row : PORow)
    (hmem : row ∈ rows) (hq : 0 < row.quantity)
    (hfail : row.balance_to_deliver < row.quantity ∨
      row.rate * (11/10) < row.unit_price) :
    (allocate ledger slot rows po_number_input gst_percent).2 = ledger := by
  have hne : validatePO rows ≠ [] :=
    validatePO_ne_nil rows row hmem (validateRow_ne_nil row hq hfail)
  obtain ⟨e, es, hE⟩ := List.exists_cons_of_ne_nil hne
  simp [allocate, hE]

/-- Witness for C1: a PO containing the over-quantity row `rowOver`
(200 requested against balance 100) leaves the concrete ledger `[item0]`
unchanged. -/
theorem allocate_rejection_preserves_ledger_witness :
    (allocate [item0] 0 [row40, rowOver] "ZTPL-HR/2K25-2K26-001" 18).2 = [item0] :=
  allocate_rejection_preserves_ledger [item0] 0 [row40, rowOver]
    "ZTPL-HR/2K25-2K26-001" 18 rowOver (by simp)
    (by norm_num [rowOver]) (Or.inl (by norm_num [rowOver]))

/-- C3 counterexample: the two checks are short-circuited, not independent.
For the concrete row with quantity 5 against balance 1 at unit price 100
against rate 10 (ceiling 11) — a row failing both checks — the rejection
list contains only the balance failure; in particular it is false that every
both-failing row has its price failure reported. -/
theorem short_circuit_counterexample :
    ¬ (∀ row : PORow, 0 < row.quantity → row.balance_to_deliver < row.quantity →
        row.rate * (11/10) < row.unit_price →
        LineError.priceExceeded row.boq_ref (row.rate * (11/10)) row.unit_price
          ∈ validateRow row) := by
  intro h
  have hmem := h ⟨"X", 10, 1, 5, 100⟩ (by norm_num) (by norm_num) (by norm_num)
  norm_num [validateRow] at hmem
  exact LineError.noConfusion hmem

/-- C3 amended: the `elif` chain evaluates the checks short-circuited per
row: a positive-quantity row that fails the balance check contributes
exactly the balance failure (with balance and requested quantity), and no
price failure is reported for it even when the price check would also
fail. -/
theorem short_circuit_amended (row : PORow) (hq : 0 < row.quantity)
    (hb : row.balance_to_deliver < row.quantity) :
    validateRow row =
      [LineError.balanceExceeded row.boq_ref row.balance_to_deliver row.quantity] ∧
    LineError.priceExceeded row.boq_ref (row.rate * (11/10)) row.unit_price
      ∉ validateRow row := by
  have hrow : validateRow row =
      [LineError.balanceExceeded row.boq_ref row.balance_to_deliver row.quantity] := by
    unfold validateRow
    rw [if_pos hq, if_pos hb]
  refine ⟨hrow, ?_⟩
  rw [hrow]
  simp

/-- Witness for C3's amended claim: the both-failing row
`⟨"X", 10, 1, 5, 100⟩` reports exactly its balance failure. -/
theorem short_circuit_amended_witness :
    validateRow ⟨"X", 10, 1, 5, 100⟩ = [LineError.balanceExceeded "X" 1 5] ∧
    LineError.priceExceeded "X" (10 * (11/10)) 100 ∉ validateRow ⟨"X", 10, 1, 5, 100⟩ :=
  short_circuit_amended ⟨"X", 10, 1, 5, 100⟩ (by norm_num) (by norm_num)

/-- C4 counterexample: acceptance is not equivalent to
"quantity is zero, or quantity ≤ balance and price ≤ rate × 1.10": the row
with quantity −1 and unit price 100 against rate 10 (ceiling 11) is accepted
by the code (any non-positive quantity skips both checks), yet its quantity
is nonzero and its price exceeds the ceiling. -/
theorem validator_iff_counterexample :
    ¬ (∀ row : PORow, validateRow row = [] ↔
        (row.quantity = 0 ∨ (row.quantity ≤ row.balance_to_deliver ∧
          row.unit_price ≤ row.rate * (11/10)))) := by
  intro h
  have hrow := (h ⟨"N", 10, 10, -1, 100⟩).mp (by norm_num [validateRow])
  rcases hrow with h0 | ⟨_, hp⟩
  · norm_num at h0
  · norm_num at hp

/-- C4 amended: a row is accepted iff its quantity is nonpositive (such
rows skip both checks), or its quantity does not exceed the balance and its
unit price does not exceed rate × 1.10; at the boundary, quantity exactly
equal to the balance together with price exactly equal to rate × 1.10 is
accepted (rate 50, ceiling 55), while price 55.01 is rejected. -/
theorem validator_accepts_iff :
    (∀ row : PORow, validateRow row = [] ↔
      (row.quantity ≤ 0 ∨ (row.quantity ≤ row.balance_to_deliver ∧
        row.unit_price ≤ row.rate * (11/10)))) ∧
    validateRow ⟨"A", 50, 40, 40, 55⟩ = [] ∧
    validateRow ⟨"A", 50, 40, 40, 55 + 1/100⟩ =
      [LineError.priceExceeded "A" (50 * (11/10)) (55 + 1/100)] := by
  refine ⟨?_, by norm_num [validateRow], by norm_num [validateRow]⟩
  intro row
  unfold validateRow
  split_ifs with h1 h2 h3
  · simp only [ne_eq, List.cons_ne_nil, false_iff]
    push_neg
    refine ⟨by linarith, fun hb => absurd hb (not_le.mpr h2)⟩
  · simp only [ne_eq, List.cons_ne_nil, false_iff]
    push_neg
    refine ⟨by linarith, fun _ => h3⟩
  · simp only [true_iff]
    exact Or.inr ⟨not_lt.mp h2, not_lt.mp h3⟩
  · simp only [true_iff]
    exact Or.inl (not_lt.mp h1)

theorem updateFirst_map_ref (ledger : List BOQItem) (ref : String) (slot : ℕ)
    (qty : ℚ) :
    (updateFirst ledger ref slot qty).map BOQItem.boq_ref =
      ledger.map BOQItem.boq_ref := by
  induction ledger with
  | nil => rfl
  | cons it rest ih =>
    unfold updateFirst
    by_cases h : it.boq_ref = ref
    · simp [h, applyDelivery]
    · simp [h, ih]

theorem commitRows_map_ref (rows : List PORow) (ledger : List BOQItem)
    (slot : ℕ) :
    (commitRows ledger slot rows).map BOQItem.boq_ref =
      ledger.map BOQItem.boq_ref := by
  induction rows generalizing ledger with
  | nil => rfl
  | cons r rs ih =>
    unfold commitRows at ih ⊢
    rw [List.foldl_cons]
    by_cases h : r.quantity > 0
    · rw [if_pos h, ih, updateFirst_map_ref]
    · rw [if_neg h, ih]

theorem updateFirst_of_ref_absent (ledger : List BOQItem) (ref : String)
    (slot : ℕ) (qty : ℚ) (h : ref ∉ ledger.map BOQItem.boq_ref) :
    updateFirst ledger ref slot qty = ledger := by
  induction ledger with
  | nil => rfl
  | cons it rest ih =>
    simp only [List.map_cons, List.mem_cons, not_or] at h
    unfold updateFirst
    rw [if_neg (fun he => h.1 he.symm), ih h.2]

/-- C10: a PO row with positive quantity whose `boq_ref` matches no ledger
row of the project is silently skipped by the commit loop — committing the
PO with or without that row yields the same ledger — while the row's
quantity × unit price still enters the subtotal, the GST amount and the
grand total. -/
theorem unmatched_row_skipped_but_billed
    (ledger : List BOQItem) (slot : ℕ) (row : PORow) (pre post : List PORow)
    (gp : ℚ) (hq : 0 < row.quantity)
    (hmiss : ∀ it ∈ ledger, it.boq_ref ≠ row.boq_ref) :
    commitRows ledger slot (pre ++ row :: post) =
      commitRows ledger slot (pre ++ post) ∧
    subtotal (pre ++ row :: post) =
      subtotal (pre ++ post) + row.quantity * row.unit_price ∧
    gst_amount (pre ++ row :: post) gp =
      (subtotal (pre ++ post) + row.quantity * row.unit_price) * gp / 100 ∧
    grand_total (pre ++ row :: post) gp =
      subtotal (pre ++ post) + row.quantity * row.unit_price +
        gst_amount (pre ++ row :: post) gp := by
  have habs : row.boq_ref ∉ ledger.map BOQItem.boq_ref := by
    intro hin
    obtain ⟨it, hit, hre⟩ := List.mem_map.mp hin
    exact hmiss it hit hre
  have hsub : subtotal (pre ++ row :: post) =
      subtotal (pre ++ post) + row.quantity * row.unit_price := by
    unfold subtotal
    rw [List.map_append, List.map_append, List.map_cons, List.sum_append,
      List.sum_append, List.sum_cons]
    ring
  refine ⟨?_, hsub, ?_, ?_⟩
  · unfold commitRows
    rw [List.foldl_append, List.foldl_append, List.foldl_cons, if_pos hq]
    have habs2 : row.boq_ref ∉
        (List.foldl
          (fun lg r => if r.quantity > 0 then updateFirst lg r.boq_ref slot r.quantity else lg)
          ledger pre).map BOQItem.boq_ref := by
      have := commitRows_map_ref pre ledger slot
      unfold commitRows at this
      rw [this]
      exact habs
    rw [updateFirst_of_ref_absent _ _ _ _ habs2]
  · unfold gst_amount
    rw [hsub]
  · unfold grand_total
    rw [hsub]

/-- Witness for C10: committing the single ghost row `rowGhost`
(ref "ZZ", quantity 5, price 7) against the ledger `[item0]` changes
nothing, yet the totals bill the row. -/
theorem unmatched_row_skipped_but_billed_witness :
    commitRows [item0] 0 ([] ++ rowGhost :: []) = commitRows [item0] 0 ([] ++ []) ∧
    subtotal ([] ++ rowGhost :: []) =
      subtotal ([] ++ []) + rowGhost.quantity * rowGhost.unit_price ∧
    gst_amount ([] ++ rowGhost :: []) 18 =
      (subtotal ([] ++ []) + rowGhost.quantity * rowGhost.unit_price) * 18 / 100 ∧
    grand_total ([] ++ rowGhost :: []) 18 =
      subtotal ([] ++ []) + rowGhost.quantity * rowGhost.unit_price +
        gst_amount ([] ++ rowGhost :: []) 18 :=
  unmatched_row_skipped_but_billed [item0] 0 rowGhost [] [] 18
    (by norm_num [rowGhost])
    (by
      intro it hit
      rw [List.mem_singleton] at hit
      subst hit
      simp [item0, rowGhost])

/-- C6 counterexample: a successful "Generate Purchase Order" commit does
not increment any sequence counter.  With counter table `[("HR", 5)]`, the
accepted allocation of `row40` against `[item0]` returns the counter table
unchanged: the counter for "HR" still reads 5, not 6, so the claimed
"sequence bump commits together with the ledger lines" is false. -/
theorem commit_without_sequence_bump_counterexample :
    ¬ (∀ (counters : List (String × ℤ)) (ledger : List BOQItem) (slot : ℕ)
        (rows : List PORow) (po : String) (gst : ℚ) (loc : String),
        (generatePurchaseOrder counters ledger slot rows po gst).1.isAccepted →
        lookupCounter (generatePurchaseOrder counters ledger slot rows po gst).2.2 loc =
          some ((lookupCounter counters loc).getD 0 + 1)) := by
  intro h
  have hval : validatePO [row40] = [] := by
    norm_num [validatePO, validateRow, row40]
  have hacc : (generatePurchaseOrder [("HR", 5)] [item0] 0 [row40]
      "ZTPL-HR/2K25-2K26-006" 18).1.isAccepted := by
    simp [generatePurchaseOrder, allocate, hval, AllocResult.isAccepted]
  have hbump := h [("HR", 5)] [item0] 0 [row40] "ZTPL-HR/2K25-2K26-006" 18 "HR" hacc
  norm_num [generatePurchaseOrder, lookupCounter] at hbump

/-- C6 amended: the PO number and the ledger commit are decoupled.  The
"Generate Purchase Order" commit returns the `po_counters` table exactly as
given (it never calls the sequence issuer; the PO number it stores is the
text-input value), while the separate "Generate New PO Number" action —
`generate_po_number` — bumps and persists the counter on its own,
formatting the number from the fiscal label and the fresh serial. -/
theorem po_number_and_ledger_commit_decoupled :
    (∀ (counters : List (String × ℤ)) (ledger : List BOQItem) (slot : ℕ)
        (rows : List PORow) (po : String) (gst : ℚ),
      (generatePurchaseOrder counters ledger slot rows po gst).2.2 = counters) ∧
    (∀ (counters : List (String × ℤ)) (loc : String) (y m : ℕ),
      lookupCounter (generate_po_number counters loc y m).2 loc =
        some ((lookupCounter counters loc).getD 0 + 1) ∧
      (generate_po_number counters loc y m).1 =
        "ZTPL-" ++ loc ++ "/" ++ get_current_financial_year y m ++ "-" ++
          pad3 ((lookupCounter counters loc).getD 0 + 1)) := by
  refine ⟨fun _ _ _ _ _ _ => rfl, fun counters loc y m => ⟨?_, ?_⟩⟩
  · exact lookupCounter_nextSerial counters loc
  · simp only [generate_po_number, nextSerial_fst]

/-- C9 counterexample: deleting a location does not leave its counter row
in place.  For the database holding location "HR" with counter value 5,
the deletion handler empties the `po_counters` table as well. -/
theorem delete_location_orphan_counterexample :
    ¬ (∀ (db : AdminTables) (loc : String),
        (deleteLocation db loc).counters = db.counters) := by
  intro h
  have hdel := h ⟨[("HR", "Haryana")], [("HR", 5)]⟩ "HR"
  simp [deleteLocation, List.filter_cons] at hdel

theorem lookupCounter_filter_self (tbl : List (String × ℤ)) (loc : String) :
    lookupCounter (tbl.filter (fun p => p.1 != loc)) loc = none := by
  induction tbl with
  | nil => rfl
  | cons p rest ih =>
    rw [List.filter_cons]
    by_cases hp : p.1 = loc
    · simp only [hp, bne_self_eq_false]
      exact ih
    · have : (p.1 != loc) = true := bne_iff_ne.mpr hp
      rw [if_pos this]
      simp only [lookupCounter, if_neg hp]
      exact ih

/-- C9 amended: the deletion handler removes the location's rows from both
tables: afterwards no counter row for the location can be looked up, while
every row of either table belonging to a different location survives, and
every surviving `locations` row indeed belongs to a different location. -/
theorem delete_location_removes_both (db : AdminTables) (loc : String) :
    lookupCounter (deleteLocation db loc).counters loc = none ∧
    (∀ p ∈ db.counters, p.1 ≠ loc → p ∈ (deleteLocation db loc).counters) ∧
    (∀ p ∈ db.locations, p.1 ≠ loc → p ∈ (deleteLocation db loc).locations) ∧
    (∀ p ∈ (deleteLocation db loc).locations, p.1 ≠ loc) := by
  refine ⟨lookupCounter_filter_self db.counters loc, ?_, ?_, ?_⟩
  · intro p hp hne
    exact List.mem_filter.mpr ⟨hp, bne_iff_ne.mpr hne⟩
  · intro p hp hne
    exact List.mem_filter.mpr ⟨hp, bne_iff_ne.mpr hne⟩
  · intro p hp
    exact bne_iff_ne.mp (List.mem_filter.mp hp).2

/-- Witness for C9's amended claim, on a concrete database with two
locations: deleting "HR" leaves no "HR" counter and keeps the "TN" rows. -/
theorem delete_location_removes_both_witness :
    lookupCounter (deleteLocation ⟨[("HR", "Haryana"), ("TN", "Chennai")],
        [("HR", 5), ("TN", 2)]⟩ "HR").counters "HR" = none ∧
    ("TN", (2 : ℤ)) ∈ (deleteLocation ⟨[("HR", "Haryana"), ("TN", "Chennai")],
        [("HR", 5), ("TN", 2)]⟩ "HR").counters ∧
    ("TN", "Chennai") ∈ (deleteLocation ⟨[("HR", "Haryana"), ("TN", "Chennai")],
        [("HR", 5), ("TN", 2)]⟩ "HR").locations :=
  let db : AdminTables :=
    ⟨[("HR", "Haryana"), ("TN", "Chennai")], [("HR", 5), ("TN", 2)]⟩
  ⟨(delete_location_removes_both db "HR").1,
   (delete_location_removes_both db "HR").2.1 ("TN", 2) (by simp) (by simp),
   (delete_location_removes_both db "HR").2.2.1 ("TN", "Chennai") (by simp) (by simp)⟩

theorem sum_set_add (l : List ℚ) (slot : ℕ) (q : ℚ) (h : slot < l.length) :
    (l.set slot (l.getD slot 0 + q)).sum = l.sum + q := by
  induction l generalizing slot with
  | nil => simp at h
  | cons a rest ih =>
    cases slot with
    | zero => simp [List.sum_cons]; ring
    | succ s =>
      simp only [List.set_cons_succ, List.getD_cons_succ, List.sum_cons]
      rw [ih s (by simpa using h)]
      ring

set_option maxRecDepth 8000 in
/-- C8 counterexample: the dataframe's `Total` column is computed on
binary64 floats, and its result does not always equal exact decimal
arithmetic even for inputs with at most two decimal places.  It is false
that for all cent-valued quantities `a/100` and unit prices `b/100` the
float64 line total equals the exact product: at quantity 0.10 and unit
price 0.10 the float product (significand 5764607523034236, exponent −59)
differs from the exact 0.01. -/
theorem decimal_arithmetic_counterexample :
    ¬ (∀ a b : ℕ, val64 (fmul64 (rnd64 a 100) (rnd64 b 100)) =
        (a : ℚ)/100 * ((b : ℚ)/100)) := by
  intro h
  have h10 := h 10 10
  rw [show rnd64 10 100 = (7205759403792794, -56) by decide] at h10
  rw [show fmul64 (7205759403792794, -56) (7205759403792794, -56) =
      (5764607523034236, -59) by decide] at h10
  norm_num [val64] at h10

set_option maxRecDepth 8000 in
/-- C8 amended: only the delivery-slot ledger update works in exact
fixed-point decimal arithmetic — `apply_delivery` adds the quantity to the
selected slot exactly — while the validation comparisons and the
subtotal/tax/grand-total computations run on binary64 floats, whose result
deviates from exact decimal arithmetic already for the two-decimal line
0.10 × 0.10. -/
theorem decimal_only_in_ledger_update :
    val64 (fmul64 (rnd64 10 100) (rnd64 10 100)) ≠ (10 : ℚ)/100 * ((10 : ℚ)/100) ∧
    ∀ (item : BOQItem) (slot : ℕ) (q : ℚ), slot < item.delivered.length →
      (applyDelivery item slot q).delivered.sum = item.delivered.sum + q := by
  constructor
  · rw [show rnd64 10 100 = (7205759403792794, -56) by decide]
    rw [show fmul64 (7205759403792794, -56) (7205759403792794, -56) =
        (5764607523034236, -59) by decide]
    norm_num [val64]
  · intro item slot q h
    exact sum_set_add item.delivered slot q h

/-- Witness for C8's amended claim: applying a delivery of 40 to slot 0 of
the ten-slot item `item0` raises the slot sum from 0 to 40 exactly. -/
theorem decimal_only_in_ledger_update_witness :
    (applyDelivery item0 0 40).delivered.sum = item0.delivered.sum + 40 :=
  decimal_only_in_ledger_update.2 item0 0 40 (by norm_num [item0])
